import Mathlib

/-!
Shallow embedding of the library-management admin layer
(`catalog/admin.py`, `catalog/utils/exports.py`, `catalog/admin_views.py`).

Django querysets over a table are modelled as a row predicate; a table is a
`List` of rows; `queryset.update(...)` maps the matching rows and returns the
matched-row count, exactly as the ORM does.  Python strings are modelled as
Lean `String`s with ASCII case folding (Python's extra Unicode case rules are
irrelevant to the properties below).  Dates and datetimes are explicit
records compared chronologically, as `datetime.date` / `datetime.datetime`
compare in Python.
-/

namespace LibraryMgmt

/-! ## Python string primitives -/

/-- Characters stripped by Python `str.strip()` (ASCII whitespace). -/
def isPySpace (c : Char) : Bool :=
  c = ' ' || c = '\t' || c = '\n' || c = '\r' || c = Char.ofNat 11 || c = Char.ofNat 12

def pyStripList (cs : List Char) : List Char :=
  ((cs.dropWhile isPySpace).reverse.dropWhile isPySpace).reverse

/-- Python `str.strip()` with no argument. -/
def pyStrip (s : String) : String :=
  String.mk (pyStripList s.data)

/-- Python `str.upper()` (ASCII letters). -/
def pyUpper (s : String) : String :=
  String.mk (s.data.map Char.toUpper)

def pyTitleGo : Bool → List Char → List Char
  | _, [] => []
  | prevAlpha, c :: cs =>
    if c.isAlpha then
      (if prevAlpha then c.toLower else c.toUpper) :: pyTitleGo true cs
    else
      c :: pyTitleGo false cs

/-- Python `str.title()` (ASCII letters): first letter of each run of letters
is uppercased, the rest lowercased. -/
def pyTitle (s : String) : String :=
  String.mk (pyTitleGo false s.data)

/-- Python truthiness-based `a or b` where `a` is an optional string and the
result is a string: `None` and `""` are falsy. -/
def pyOrStr (a : Option String) (b : String) : String :=
  match a with
  | some s => if s = "" then b else s
  | none => b

/-- Python truthiness-based `a or b` on two optional strings. -/
def pyOrOptStr (a b : Option String) : Option String :=
  match a with
  | some s => if s = "" then b else some s
  | none => b

/-- Python truthiness-based `a or b` on integers (`0` is falsy). -/
def pyOrInt (a b : Int) : Int :=
  if a = 0 then b else a

/-! ## Python `int()` over strings

`int(s)` strips surrounding whitespace, accepts an optional sign, then a
nonempty digit sequence in which single underscores may separate digits
(no leading/trailing or doubled underscore); anything else raises
`ValueError`.  (Non-ASCII digits are out of the modelled alphabet.) -/

def digitVal (c : Char) : Nat := c.toNat - '0'.toNat

def digitsToNat (cs : List Char) : Nat :=
  cs.foldl (fun acc c => acc * 10 + digitVal c) 0

def underscoredDigitsTail : List Char → Bool
  | [] => true
  | '_' :: c :: cs => c.isDigit && underscoredDigitsTail cs
  | '_' :: [] => false
  | c :: cs => c.isDigit && underscoredDigitsTail cs

def underscoredDigitsOk : List Char → Bool
  | [] => false
  | c :: cs => c.isDigit && underscoredDigitsTail cs

def pyIntDigits? (cs : List Char) : Option Nat :=
  if underscoredDigitsOk cs then
    some (digitsToNat (cs.filter (fun c => c ≠ '_')))
  else
    none

/-- Python `int(s)` on a string argument: `some n` on success, `none` where
Python raises `ValueError`. -/
def pyInt? (s : String) : Option Int :=
  match pyStripList s.data with
  | '+' :: rest => (pyIntDigits? rest).map (fun n => (n : Int))
  | '-' :: rest => (pyIntDigits? rest).map (fun n => -(n : Int))
  | cs => (pyIntDigits? cs).map (fun n => (n : Int))

/-! ## Dates and datetimes -/

structure PyDate where
  year : Nat
  month : Nat
  day : Nat
deriving Repr, DecidableEq

def isLeapYear (y : Nat) : Bool :=
  y % 4 = 0 && (y % 100 ≠ 0 || y % 400 = 0)

def daysInMonth (y m : Nat) : Nat :=
  if m = 2 then (if isLeapYear y then 29 else 28)
  else if m = 4 || m = 6 || m = 9 || m = 11 then 30
  else 31

def PyDate.valid (d : PyDate) : Bool :=
  decide (1 ≤ d.year ∧ d.year ≤ 9999 ∧ 1 ≤ d.month ∧ d.month ≤ 12 ∧
    1 ≤ d.day ∧ d.day ≤ daysInMonth d.year d.month)

/-- Chronological strict order on dates (how Python compares `date`s). -/
def PyDate.lt (a b : PyDate) : Bool :=
  decide (a.year < b.year ∨ (a.year = b.year ∧
    (a.month < b.month ∨ (a.month = b.month ∧ a.day < b.day))))

/-- Left-pad a number with zeros to the given width. -/
def padNum (width n : Nat) : String :=
  let s := toString n
  if s.length < width then String.mk (List.replicate (width - s.length) '0') ++ s
  else s

/-- Python `date.isoformat()`. -/
def PyDate.isoformat (d : PyDate) : String :=
  padNum 4 d.year ++ "-" ++ padNum 2 d.month ++ "-" ++ padNum 2 d.day

/-- Python `date.fromisoformat` (the strict `YYYY-MM-DD` grammar): `some`
on success, `none` where Python raises `ValueError`. -/
def date_fromisoformat? (s : String) : Option PyDate :=
  match s.data with
  | [y1, y2, y3, y4, h1, m1, m2, h2, d1, d2] =>
    if y1.isDigit && y2.isDigit && y3.isDigit && y4.isDigit &&
       h1 = '-' && m1.isDigit && m2.isDigit && h2 = '-' &&
       d1.isDigit && d2.isDigit then
      let d : PyDate := ⟨digitsToNat [y1, y2, y3, y4], digitsToNat [m1, m2], digitsToNat [d1, d2]⟩
      if d.valid then some d else none
    else none
  | _ => none

/-- A timezone-aware datetime, already in the local timezone
(`timezone.localtime` is thus the identity in this model). -/
structure DateTime where
  year : Nat
  month : Nat
  day : Nat
  hour : Nat
  minute : Nat
  second : Nat
deriving Repr, DecidableEq

/-- Python `datetime.date()`. -/
def DateTime.date (t : DateTime) : PyDate :=
  ⟨t.year, t.month, t.day⟩

/-- Python `strftime using the Y-m-d H:M:S layout`. -/
def DateTime.strftimeYmdHMS (t : DateTime) : String :=
  padNum 4 t.year ++ "-" ++ padNum 2 t.month ++ "-" ++ padNum 2 t.day ++ " " ++
    padNum 2 t.hour ++ ":" ++ padNum 2 t.minute ++ ":" ++ padNum 2 t.second

/-! ## exports.py parameter parsing -/

/-- exports.py `_parse_int`: `int(val) if val is not None and val != "" else None`,
returning `None` on `ValueError`. -/
def _parse_int (val : Option String) : Option Int :=
  match val with
  | none => none
  | some s => if s = "" then none else pyInt? s

/-- exports.py `_parse_date`: `date.fromisoformat(val) if val else None`,
returning `None` on `ValueError`. -/
def _parse_date (val : Option String) : Option PyDate :=
  match val with
  | none => none
  | some s => if s = "" then none else date_fromisoformat? s

/-! ## Data model

The entities come from `catalog/models.py` (referenced throughout src/ but not
itself under src/); field names and status enumerations follow the spec's data
model section and the uses in `catalog/admin.py` / `catalog/utils/exports.py`.
Dates are `PyDate`, timestamps `DateTime`, primary/foreign keys `Nat`. -/

inductive BorrowRequest.Status
  | PENDING
  | APPROVED
  | REJECTED
  | CANCELLED
  | EXPIRED
deriving Repr, DecidableEq

structure BorrowRequest where
  id : Nat
  userId : Nat
  requestedFrom : PyDate
  requestedTo : PyDate
  status : BorrowRequest.Status
  adminId : Option Nat
  decisionAt : Option DateTime
  rejectionReason : String
deriving Repr, DecidableEq

inductive Loan.Status
  | BORROWED
  | RETURNED
  | OVERDUE
deriving Repr, DecidableEq

structure Loan where
  id : Nat
  requestId : Nat
  requestItemId : Nat
  bookItemId : Nat
  approvedFrom : PyDate
  dueDate : PyDate
  status : Loan.Status
  returnedAt : Option PyDate
deriving Repr, DecidableEq

inductive BookItem.Status
  | AVAILABLE
  | RESERVED
  | LOANED
  | LOST
  | DAMAGED
deriving Repr, DecidableEq

structure BookItem where
  id : Nat
  bookId : Nat
  barcode : String
  status : BookItem.Status
  locationCode : Option String
  createdAt : Option DateTime
deriving Repr, DecidableEq

/-- A `django.contrib.auth` user row, restricted to the fields the
user-management actions touch. -/
structure UserRec where
  id : Nat
  isActive : Bool
deriving Repr, DecidableEq

/-- The database status code stored for a `BookItem.Status` choice. -/
def BookItem.Status.code : BookItem.Status → String
  | .AVAILABLE => "AVAILABLE"
  | .RESERVED => "RESERVED"
  | .LOANED => "LOANED"
  | .LOST => "LOST"
  | .DAMAGED => "DAMAGED"

/-- Inverse of `BookItem.Status.code`: `some` exactly on the five status
codes.  `build_book_queryset` filters by `items__status` exactly when the
normalized parameter is one of these codes. -/
def BookItem.Status.ofCode? (s : String) : Option BookItem.Status :=
  if s = "AVAILABLE" then some .AVAILABLE
  else if s = "RESERVED" then some .RESERVED
  else if s = "LOANED" then some .LOANED
  else if s = "LOST" then some .LOST
  else if s = "DAMAGED" then some .DAMAGED
  else none

/-- Human label of a `BookItem` status as produced by `get_status_display()`
(the choice labels live in `catalog/models.py`, not under src/; Django's
conventional capitalized labels are used — no claim depends on the text). -/
def BookItem.Status.display : BookItem.Status → String
  | .AVAILABLE => "Available"
  | .RESERVED => "Reserved"
  | .LOANED => "Loaned"
  | .LOST => "Lost"
  | .DAMAGED => "Damaged"

/-- Human label of a `Loan` status as produced by `get_status_display()`
(same convention as `BookItem.Status.display`). -/
def Loan.Status.display : Loan.Status → String
  | .BORROWED => "Borrowed"
  | .RETURNED => "Returned"
  | .OVERDUE => "Overdue"

/-! ## Django ORM querysets

A queryset over a table is its row predicate; `filter` / `exclude` refine it,
`update` rewrites the matching rows of the table and returns how many rows
matched, `count` counts them. -/

structure QuerySet (α : Type) where
  pred : α → Bool

def QuerySet.filter {α : Type} (qs : QuerySet α) (p : α → Bool) : QuerySet α :=
  ⟨fun x => qs.pred x && p x⟩

def QuerySet.exclude {α : Type} (qs : QuerySet α) (p : α → Bool) : QuerySet α :=
  ⟨fun x => qs.pred x && !(p x)⟩

def QuerySet.count {α : Type} (qs : QuerySet α) (db : List α) : Nat :=
  (db.filter qs.pred).length

def QuerySet.update {α : Type} (qs : QuerySet α) (f : α → α) (db : List α) :
    List α × Nat :=
  (db.map (fun x => if qs.pred x then f x else x), (db.filter qs.pred).length)

/-- Messages emitted through `django.contrib.messages`. -/
inductive AdminMessage
  | success (text : String)
  | error (text : String)
  | info (text : String)
deriving Repr, DecidableEq

/-! ## catalog/admin.py — user management actions -/

/-- admin.py `activate_users`. -/
def activate_users (queryset : QuerySet UserRec) (db : List UserRec) :
    List UserRec × AdminMessage :=
  let (db2, updated) := queryset.update (fun u => { u with isActive := true }) db
  (db2, .success s!"Activated {updated} user(s)")

/-- admin.py `deactivate_users`: excludes the requesting user before
updating. -/
def deactivate_users (requestUserId : Nat) (queryset : QuerySet UserRec)
    (db : List UserRec) : List UserRec × AdminMessage :=
  let qs := queryset.exclude (fun u => u.id == requestUserId)
  let skipped := queryset.count db - qs.count db
  let (db2, updated) := qs.update (fun u => { u with isActive := false }) db
  let msg := s!"Deactivated {updated} user(s)"
  let msg := if skipped ≠ 0 then msg ++ s!" (skipped {skipped} current user)" else msg
  (db2, .success msg)

/-! ## catalog/admin.py — BorrowRequestAdmin actions -/

/-- admin.py `OverdueRequestFilter.queryset`. -/
def overdueRequestFilter_queryset (value : Option String) (now : DateTime)
    (queryset : QuerySet BorrowRequest) : QuerySet BorrowRequest :=
  if value = some "yes" then
    queryset.filter (fun r =>
      r.status == BorrowRequest.Status.PENDING && PyDate.lt r.requestedTo now.date)
  else if value = some "no" then
    queryset.exclude (fun r =>
      r.status == BorrowRequest.Status.PENDING && PyDate.lt r.requestedTo now.date)
  else
    queryset

/-- admin.py `BorrowRequestAdmin.approve_selected`: `now` is
`timezone.now()`, `adminId` the requesting admin (`request.user`). -/
def approve_selected (now : DateTime) (adminId : Nat)
    (queryset : QuerySet BorrowRequest) (db : List BorrowRequest) :
    List BorrowRequest × AdminMessage :=
  let pending := queryset.filter (fun r => r.status == BorrowRequest.Status.PENDING)
  let (db2, updated) := pending.update (fun r =>
    { r with status := .APPROVED, decisionAt := some now, adminId := some adminId,
             rejectionReason := "" }) db
  (db2, .success s!"Approved {updated} request(s)")

/-- admin.py `BorrowRequestAdmin.reject_selected`: `postRejectionReason` is
`request.POST.get("rejection_reason", "")` before the default is applied. -/
def reject_selected (now : DateTime) (adminId : Nat)
    (postRejectionReason : Option String) (queryset : QuerySet BorrowRequest)
    (db : List BorrowRequest) : List BorrowRequest × AdminMessage :=
  let reason := pyStrip (postRejectionReason.getD "")
  if reason = "" then
    (db, .error "Please provide a rejection reason in the action bar before rejecting.")
  else
    let pending := queryset.filter (fun r => r.status == BorrowRequest.Status.PENDING)
    let (db2, updated) := pending.update (fun r =>
      { r with status := .REJECTED, decisionAt := some now, adminId := some adminId,
               rejectionReason := reason }) db
    (db2, .success s!"Rejected {updated} request(s)")

/-- admin.py `BorrowRequestAdmin.mark_selected_expired`. -/
def mark_selected_expired (now : DateTime) (queryset : QuerySet BorrowRequest)
    (db : List BorrowRequest) : List BorrowRequest × AdminMessage :=
  let today := now.date
  let qs := queryset.filter (fun r =>
    r.status == BorrowRequest.Status.PENDING && PyDate.lt r.requestedTo today)
  let (db2, updated) := qs.update (fun r => { r with status := .EXPIRED }) db
  if updated ≠ 0 then
    (db2, .success s!"Marked {updated} request(s) as expired")
  else
    (db2, .info "No pending requests past their requested_to date")

/-! ## catalog/admin.py — LoanAdmin actions -/

/-- admin.py `LoanAdmin.mark_as_returned`. -/
def mark_as_returned (now : DateTime) (queryset : QuerySet Loan)
    (db : List Loan) : List Loan × AdminMessage :=
  let (db2, updated) := queryset.update (fun l =>
    { l with status := .RETURNED, returnedAt := some now.date }) db
  (db2, .success s!"Marked {updated} loan(s) as returned")

/-- admin.py `LoanAdmin.mark_overdue_due`. -/
def mark_overdue_due (now : DateTime) (queryset : QuerySet Loan)
    (db : List Loan) : List Loan × AdminMessage :=
  let today := now.date
  let qs := queryset.filter (fun l =>
    PyDate.lt l.dueDate today && l.status == Loan.Status.BORROWED)
  let (db2, updated) := qs.update (fun l => { l with status := .OVERDUE }) db
  if updated ≠ 0 then
    (db2, .success s!"Marked {updated} loan(s) as overdue")
  else
    (db2, .info "No borrowed loans past due date")

/-! ## catalog/utils/exports.py — queryset building -/

/-- A GET-like parameter mapping (`request.GET`): `get` returns the value of
the first pair with the given key, `None` when absent. -/
structure Params where
  pairs : List (String × String)
deriving Repr, DecidableEq

def Params.get (ps : Params) (k : String) : Option String :=
  (ps.pairs.find? (fun p => p.fst == k)).map Prod.snd

/-- The filters and ordering accumulated on the Book queryset by
`build_book_queryset`: a `some` field is an applied `.filter(...)`, `none`
leaves the queryset unfiltered by that criterion.  (The annotations added by
`annotate_book_metrics` are value computations carried on `BookView` rows
below, not filters.) -/
structure BookQuery where
  searchQ : Option String
  categoryId : Option Int
  authorId : Option Int
  publisherId : Option Int
  publishYearFrom : Option Int
  publishYearTo : Option Int
  language : Option String
  itemStatus : Option BookItem.Status
  createdFrom : Option PyDate
  createdTo : Option PyDate
  distinct : Bool
  orderBy : String
  itemsLoansPrefetched : Bool
deriving Repr, DecidableEq

/-- exports.py `allowed_sorts` in `build_book_queryset`. -/
def ALLOWED_SORTS : List String :=
  ["title", "-title", "created_at", "-created_at", "publish_year", "-publish_year"]

/-- exports.py `build_book_queryset`: builds the filtered/ordered Book
queryset from a GET-like mapping, mirroring the source's parameter fallback
chains, truthiness tests and normalization. -/
def build_book_queryset (params : Params) (include_items : Bool) : BookQuery :=
  let q := pyStrip (pyOrStr (params.get "q") "")
  let category_id := _parse_int
    (pyOrOptStr (params.get "category_id")
      (pyOrOptStr (params.get "categories__id__exact") (params.get "category__id__exact")))
  let author_id := _parse_int
    (pyOrOptStr (params.get "author_id")
      (pyOrOptStr (params.get "authors__id__exact") (params.get "author__id__exact")))
  let publisher_id := _parse_int
    (pyOrOptStr (params.get "publisher_id") (params.get "publisher__id__exact"))
  let y_from := _parse_int
    (pyOrOptStr (params.get "publish_year_from")
      (pyOrOptStr (params.get "publish_year__gte") (params.get "publish_year")))
  let y_to := _parse_int
    (pyOrOptStr (params.get "publish_year_to")
      (pyOrOptStr (params.get "publish_year__lte") (params.get "publish_year")))
  let lang := pyStrip (pyOrStr
    (pyOrOptStr (params.get "language")
      (pyOrOptStr (params.get "language_code") (params.get "language_code__exact"))) "")
  let item_status := pyUpper (pyStrip (pyOrStr
    (pyOrOptStr (params.get "item_status")
      (pyOrOptStr (params.get "items__status") (params.get "items__status__exact"))) ""))
  let c_from := _parse_date (some (pyStrip (pyOrStr
    (pyOrOptStr (params.get "created_from") (params.get "created_at__date__gte")) "")))
  let c_to := _parse_date (some (pyStrip (pyOrStr
    (pyOrOptStr (params.get "created_to") (params.get "created_at__date__lte")) "")))
  let sort := pyStrip (pyOrStr (params.get "sort") "title")
  let sort := if ALLOWED_SORTS.contains sort then sort else "title"
  { searchQ := if q = "" then none else some q
    categoryId := category_id
    authorId := author_id
    publisherId := publisher_id
    publishYearFrom := y_from
    publishYearTo := y_to
    language := if lang = "" then none else some lang
    itemStatus := BookItem.Status.ofCode? item_status
    createdFrom := c_from
    createdTo := c_to
    distinct := true
    orderBy := sort
    itemsLoansPrefetched := include_items }

/-! ## catalog/utils/exports.py — workbook rendering -/

structure PublisherRec where
  name : String
  foundedYear : Option Int
deriving Repr, DecidableEq

/-- A `BookItem` row together with its prefetched loans
(`prefetch_related` of `items__loans` in `annotate_book_metrics`). -/
structure ItemView where
  item : BookItem
  loans : List Loan
deriving Repr, DecidableEq

/-- A Book row as seen by the export: base fields, the related rows reached
through `select_related` / `prefetch_related`, and the aggregate annotations
added by `annotate_book_metrics`. -/
structure BookView where
  id : Int
  title : String
  isbn13 : Option String
  publisher : Option PublisherRec
  publishYear : Option Int
  languageCode : Option String
  coverUrl : Option String
  createdAt : Option DateTime
  authors : List String
  categories : List String
  totalItems : Int
  availableItems : Int
  reservedItems : Int
  loanedItems : Int
  lostItems : Int
  damagedItems : Int
  totalLoans : Int
  totalFavorites : Int
  authorsCount : Int
  categoriesCount : Int
  lastLoanDate : Option PyDate
  avgRating : Option ℚ
  items : List ItemView
deriving Repr, DecidableEq

/-- A spreadsheet cell value as handed to `ws.append` (Python `None` is
`null`; floats are modelled as rationals). -/
inductive Cell
  | str (v : String)
  | int (v : Int)
  | rat (v : ℚ)
  | null
deriving Repr, DecidableEq

/-- Python `round(x, 2)` on the `Avg` annotation (modelled on rationals). -/
def pyRound2 (q : ℚ) : ℚ :=
  (round (q * 100) : ℤ) / 100

def DEFAULT_BOOK_COLUMNS : List String :=
  ["id", "title", "authors", "categories", "isbn13", "publisher",
   "publisher_founded_year", "publish_year", "language", "cover_url",
   "total_items", "available_items", "reserved_items", "loaned_items",
   "lost_items", "damaged_items", "total_loans", "last_loan_date",
   "avg_rating", "total_favorites", "created_at"]

/-- The annotation keys served by the `getattr(book, key, 0) or 0` branch of
`_book_cell_value`. -/
def COUNT_KEYS : List String :=
  ["total_items", "available_items", "reserved_items", "loaned_items",
   "lost_items", "damaged_items", "total_favorites", "authors_count",
   "categories_count", "total_loans"]

def bookCountAttr (book : BookView) : String → Int
  | "total_items" => book.totalItems
  | "available_items" => book.availableItems
  | "reserved_items" => book.reservedItems
  | "loaned_items" => book.loanedItems
  | "lost_items" => book.lostItems
  | "damaged_items" => book.damagedItems
  | "total_favorites" => book.totalFavorites
  | "authors_count" => book.authorsCount
  | "categories_count" => book.categoriesCount
  | "total_loans" => book.totalLoans
  | _ => 0

/-- exports.py `_book_cell_value`. -/
def _book_cell_value (book : BookView) (key : String) : Cell :=
  if key = "id" then .int book.id
  else if key = "title" then .str book.title
  else if key = "authors" then .str (String.intercalate ", " book.authors)
  else if key = "categories" then .str (String.intercalate ", " book.categories)
  else if key = "isbn13" then .str (pyOrStr book.isbn13 "")
  else if key = "publisher" then
    .str (match book.publisher with
      | some p => p.name
      | none => "")
  else if key = "publisher_founded_year" then
    match book.publisher with
    | some p =>
      (match p.foundedYear with
       | some y => .int y
       | none => .null)
    | none => .str ""
  else if key = "publish_year" then
    match book.publishYear with
    | some y => if y = 0 then .str "" else .int y
    | none => .str ""
  else if key = "language" then .str (pyOrStr book.languageCode "")
  else if key = "cover_url" then .str (pyOrStr book.coverUrl "")
  else if COUNT_KEYS.contains key then .int (pyOrInt (bookCountAttr book key) 0)
  else if key = "avg_rating" then
    match book.avgRating with
    | some v => .rat (pyRound2 v)
    | none => .str ""
  else if key = "last_loan_date" then
    match book.lastLoanDate with
    | some d => .str d.isoformat
    | none => .str ""
  else if key = "created_at" then
    match book.createdAt with
    | some t => .str t.strftimeYmdHMS
    | none => .str ""
  else .str ""

/-- A worksheet: its title and its appended rows (top to bottom).  The
column auto-size loops in the source only set display widths of columns and
are not part of the sheet's row model. -/
structure Worksheet where
  title : String
  rows : List (List Cell)
deriving Repr, DecidableEq

/-- A workbook: the active sheet plus the sheets added by `create_sheet`. -/
structure Workbook where
  active : Worksheet
  extra : List Worksheet
deriving Repr, DecidableEq

/-- exports.py `cols = list(columns or DEFAULT_BOOK_COLUMNS)` (Python `or`:
`None` and the empty list are falsy). -/
def effective_columns (columns : Option (List String)) : List String :=
  match columns with
  | some cs => if cs = [] then DEFAULT_BOOK_COLUMNS else cs
  | none => DEFAULT_BOOK_COLUMNS

/-- Header cell of a column: `col.replace("_", " ").title()`. -/
def headerOfCol (col : String) : String :=
  pyTitle (col.replace "_" " ")

def ITEM_HEADERS : List String :=
  ["Book ID", "Title", "Barcode", "Status", "Location", "Created At",
   "Currently Loaned", "Due Date", "Loan Status"]

/-- One row of the Items sheet: the source scans the item's prefetched loans
with `next((ln for ln in item.loans.all() if ln.status == "BORROWED"), None)`
and renders the item plus its current loan, if any. -/
def itemSheetRow (book : BookView) (iv : ItemView) : List Cell :=
  let current := iv.loans.find? (fun ln => ln.status == Loan.Status.BORROWED)
  [Cell.int book.id,
   Cell.str book.title,
   Cell.str iv.item.barcode,
   Cell.str iv.item.status.display,
   Cell.str (pyOrStr iv.item.locationCode ""),
   Cell.str (match iv.item.createdAt with
     | some t => t.strftimeYmdHMS
     | none => ""),
   Cell.str (match current with
     | some _ => "Yes"
     | none => "No"),
   Cell.str (match current with
     | some ln => ln.dueDate.isoformat
     | none => ""),
   Cell.str (match current with
     | some ln => ln.status.display
     | none => "")]

/-- exports.py `render_books_workbook`: the evaluated queryset is the list of
its `BookView` rows (`qs.iterator` yields them in order). -/
def render_books_workbook (qs : List BookView) (columns : Option (List String))
    (include_items : Bool) : Workbook :=
  let cols := effective_columns columns
  let headers := cols.map headerOfCol
  let ws : Worksheet := { title := "Books", rows := [headers.map Cell.str] }
  let ws := qs.foldl (fun w book =>
    { w with rows := w.rows ++ [cols.map (_book_cell_value book)] }) ws
  if include_items then
    let ws2 : Worksheet := { title := "Items", rows := [ITEM_HEADERS.map Cell.str] }
    let ws2 := qs.foldl (fun w book =>
      book.items.foldl (fun w iv => { w with rows := w.rows ++ [itemSheetRow book iv] }) w) ws2
    { active := ws, extra := [ws2] }
  else
    { active := ws, extra := [] }

/-! ## Borrow-request / loan lifecycle as a transition system

The relational store restricted to the tables the lifecycle touches.  The
admin bulk actions above give the transitions present under src/; the
user-facing mutations (submitting and cancelling a request, and the loan
creation the spec attributes to approval) live in code of this repository
outside src/ and are modelled from the spec where a claim needs them. -/

structure LibState where
  requests : List BorrowRequest
  loans : List Loan
  items : List BookItem
deriving Repr, DecidableEq

def approve_step (now : DateTime) (adminId : Nat) (sel : QuerySet BorrowRequest)
    (s : LibState) : LibState :=
  { s with requests := (approve_selected now adminId sel s.requests).fst }

def reject_step (now : DateTime) (adminId : Nat) (postReason : Option String)
    (sel : QuerySet BorrowRequest) (s : LibState) : LibState :=
  { s with requests := (reject_selected now adminId postReason sel s.requests).fst }

def expire_step (now : DateTime) (sel : QuerySet BorrowRequest) (s : LibState) : LibState :=
  { s with requests := (mark_selected_expired now sel s.requests).fst }

def returned_step (now : DateTime) (sel : QuerySet Loan) (s : LibState) : LibState :=
  { s with loans := (mark_as_returned now sel s.loans).fst }

def overdue_step (now : DateTime) (sel : QuerySet Loan) (s : LibState) : LibState :=
  { s with loans := (mark_overdue_due now sel s.loans).fst }

/-- Modelled from the spec: loan creation on approval is performed by code of
this repository outside src/ (the user/admin views backed by
`catalog/models.py`); per the spec, "approval spawns loan records tied to
specific physical copies" and a "loan [is] created against available item",
after which the copy's status reflects that it is loaned out
(`status ∈ {..., LOANED, ...}`).  The new loan row is appended and the
targeted item moves to `LOANED`. -/
def create_loan_step (ln : Loan) (s : LibState) : LibState :=
  { s with
    loans := s.loans ++ [ln]
    items := s.items.map (fun it =>
      if it.id == ln.bookItemId then { it with status := .LOANED } else it) }

/-- One transition of the lifecycle: the admin bulk actions embedded from
`catalog/admin.py`, plus the spec-modelled mutations done by code outside
src/: a user submits a request (it starts `PENDING`), a user cancels a
pending request, a physical copy is catalogued (its auto-assigned primary
key is fresh), and a loan is spawned against an `AVAILABLE` copy.  (Direct
field edits through admin change forms are outside this transition system.) -/
inductive Step : LibState → LibState → Prop
  | approve (now : DateTime) (adminId : Nat) (sel : QuerySet BorrowRequest)
      (s : LibState) : Step s (approve_step now adminId sel s)
  | reject (now : DateTime) (adminId : Nat) (postReason : Option String)
      (sel : QuerySet BorrowRequest) (s : LibState) :
      Step s (reject_step now adminId postReason sel s)
  | expire (now : DateTime) (sel : QuerySet BorrowRequest) (s : LibState) :
      Step s (expire_step now sel s)
  | markReturned (now : DateTime) (sel : QuerySet Loan) (s : LibState) :
      Step s (returned_step now sel s)
  | markOverdue (now : DateTime) (sel : QuerySet Loan) (s : LibState) :
      Step s (overdue_step now sel s)
  | newRequest (r : BorrowRequest) (s : LibState) (h : r.status = .PENDING) :
      Step s { s with requests := s.requests ++ [r] }
  | cancelRequest (rid : Nat) (s : LibState) :
      Step s { s with requests := s.requests.map (fun r =>
        if r.id == rid && r.status == BorrowRequest.Status.PENDING
        then { r with status := .CANCELLED } else r) }
  | newItem (it : BookItem) (s : LibState)
      (hfresh : ∀ l ∈ s.loans, l.bookItemId ≠ it.id) :
      Step s { s with items := s.items ++ [it] }
  | createLoan (ln : Loan) (s : LibState) (hborrowed : ln.status = .BORROWED)
      (hitem : ∃ it ∈ s.items, it.id = ln.bookItemId ∧ it.status = .AVAILABLE) :
      Step s (create_loan_step ln s)

/-- The store starts empty. -/
def initState : LibState := ⟨[], [], []⟩

inductive Reachable : LibState → Prop
  | init : Reachable initState
  | step {s t : LibState} : Reachable s → Step s t → Reachable t

/-- Number of `BORROWED` loans referencing a given `BookItem`. -/
def borrowedCount (loans : List Loan) (iid : Nat) : Nat :=
  (loans.filter (fun l => l.bookItemId == iid && l.status == Loan.Status.BORROWED)).length

/-- The per-item current-loan lookup of the Items export sheet:
`item.loans.all()` is the loans whose FK is the item, and the sheet takes the
first one with status `BORROWED` (`next(..., None)`). -/
def itemCurrentLoan (loans : List Loan) (iid : Nat) : Option Loan :=
  (loans.filter (fun l => l.bookItemId == iid)).find?
    (fun l => l.status == Loan.Status.BORROWED)

/-- The invariant carried through the lifecycle: every copy has at most one
active loan, and a copy still marked `AVAILABLE` has none. -/
def LoanInv (s : LibState) : Prop :=
  (∀ iid, borrowedCount s.loans iid ≤ 1) ∧
  (∀ it ∈ s.items, it.status = BookItem.Status.AVAILABLE → borrowedCount s.loans it.id = 0)

/-! ## Demonstration data for witnesses -/

def demoNow : DateTime := ⟨2025, 3, 10, 12, 0, 0⟩

def demoPending : BorrowRequest :=
  ⟨1, 2, ⟨2025, 3, 1⟩, ⟨2025, 3, 5⟩, .PENDING, none, none, ""⟩

def demoItem : BookItem := ⟨5, 1, "BK000101", .AVAILABLE, some "A1-1", none⟩

def demoLoan : Loan :=
  ⟨1, 1, 1, 5, ⟨2025, 3, 1⟩, ⟨2025, 3, 20⟩, .BORROWED, none⟩

def demoPendingState : LibState := ⟨[demoPending], [], [demoItem]⟩

def demoLoanState : LibState :=
  create_loan_step demoLoan { initState with items := [demoItem] }

def demoParams : Params := ⟨[("sort", "bogus"), ("category_id", "x9")]⟩

/-! ## Helper lemmas -/

lemma forall₂_ite_update {α : Type} (p : α → Bool) (f : α → α) (R : α → α → Prop)
    (h : ∀ x, R x (if p x then f x else x)) (db : List α) :
    List.Forall₂ R db (db.map fun x => if p x then f x else x) := by
  induction db with
  | nil => exact List.Forall₂.nil
  | cons x xs ih => exact List.Forall₂.cons (h x) ih

lemma approve_selected_fst (now : DateTime) (adminId : Nat)
    (sel : QuerySet BorrowRequest) (db : List BorrowRequest) :
    (approve_selected now adminId sel db).fst =
      db.map (fun r =>
        if sel.pred r && (r.status == BorrowRequest.Status.PENDING) then
          { r with status := .APPROVED, decisionAt := some now, adminId := some adminId,
                   rejectionReason := "" }
        else r) := rfl

lemma reject_selected_fst (now : DateTime) (adminId : Nat)
    (postReason : Option String) (sel : QuerySet BorrowRequest)
    (db : List BorrowRequest) (h : pyStrip (postReason.getD "") ≠ "") :
    (reject_selected now adminId postReason sel db).fst =
      db.map (fun r =>
        if sel.pred r && (r.status == BorrowRequest.Status.PENDING) then
          { r with status := .REJECTED, decisionAt := some now, adminId := some adminId,
                   rejectionReason := pyStrip (postReason.getD "") }
        else r) := by
  simp only [reject_selected, if_neg h]
  rfl

lemma mark_selected_expired_fst (now : DateTime) (sel : QuerySet BorrowRequest)
    (db : List BorrowRequest) :
    (mark_selected_expired now sel db).fst =
      db.map (fun r =>
        if sel.pred r && (r.status == BorrowRequest.Status.PENDING &&
            PyDate.lt r.requestedTo now.date) then
          { r with status := .EXPIRED }
        else r) := by
  simp only [mark_selected_expired, QuerySet.update, QuerySet.filter]
  split <;> rfl

lemma mark_overdue_due_fst (now : DateTime) (sel : QuerySet Loan) (db : List Loan) :
    (mark_overdue_due now sel db).fst =
      db.map (fun l =>
        if sel.pred l && (PyDate.lt l.dueDate now.date && l.status == Loan.Status.BORROWED) then
          { l with status := .OVERDUE }
        else l) := by
  simp only [mark_overdue_due, QuerySet.update, QuerySet.filter]
  split <;> rfl

lemma mark_as_returned_fst (now : DateTime) (sel : QuerySet Loan) (db : List Loan) :
    (mark_as_returned now sel db).fst =
      db.map (fun l =>
        if sel.pred l then { l with status := .RETURNED, returnedAt := some now.date }
        else l) := rfl

lemma deactivate_users_fst (requestUserId : Nat) (sel : QuerySet UserRec)
    (db : List UserRec) :
    (deactivate_users requestUserId sel db).fst =
      db.map (fun u =>
        if sel.pred u && !(u.id == requestUserId) then { u with isActive := false }
        else u) := rfl

/-! ## Claim theorems -/

/-- C1: each of the three BorrowRequest bulk actions (`approve_selected`,
`reject_selected`, `mark_selected_expired`) changes a request only if its
current status is `PENDING`; a request whose status is `APPROVED`, `REJECTED`,
`CANCELLED` or `EXPIRED` is left entirely unchanged (in particular its status
never moves backwards). -/
theorem C1_borrow_actions_pending_only (now : DateTime) (adminId : Nat)
    (postReason : Option String) (sel : QuerySet BorrowRequest)
    (db : List BorrowRequest) :
    List.Forall₂ (fun old new => old.status ≠ BorrowRequest.Status.PENDING → new = old)
      db (approve_selected now adminId sel db).fst ∧
    List.Forall₂ (fun old new => old.status ≠ BorrowRequest.Status.PENDING → new = old)
      db (reject_selected now adminId postReason sel db).fst ∧
    List.Forall₂ (fun old new => old.status ≠ BorrowRequest.Status.PENDING → new = old)
      db (mark_selected_expired now sel db).fst := by
  refine ⟨?_, ?_, ?_⟩
  · rw [approve_selected_fst]
    refine forall₂_ite_update _ _ _ (fun r => ?_) db
    intro hne
    rw [if_neg]
    simp only [Bool.and_eq_true, beq_iff_eq, not_and]
    intro _ hp
    exact hne hp
  · by_cases hreason : pyStrip (postReason.getD "") = ""
    · have : (reject_selected now adminId postReason sel db).fst = db := by
        simp only [reject_selected, if_pos hreason]
      rw [this]
      exact (List.forall₂_same).mpr (fun r _ hne => rfl)
    · rw [reject_selected_fst now adminId postReason sel db hreason]
      refine forall₂_ite_update _ _ _ (fun r => ?_) db
      intro hne
      rw [if_neg]
      simp only [Bool.and_eq_true, beq_iff_eq, not_and]
      intro _ hp
      exact hne hp
  · rw [mark_selected_expired_fst]
    refine forall₂_ite_update _ _ _ (fun r => ?_) db
    intro hne
    rw [if_neg]
    simp only [Bool.and_eq_true, beq_iff_eq, not_and]
    intro _ hp
    exact absurd hp hne

/-- C3: `mark_selected_expired` sets a selected request to `EXPIRED` exactly
when its current status is `PENDING` and its `requested_to` date is strictly
before today; every other selected request (and every unselected one) is left
unchanged. -/
theorem C3_expired_exactly_when_pending_past (now : DateTime)
    (sel : QuerySet BorrowRequest) (db : List BorrowRequest) :
    List.Forall₂ (fun old new =>
        (sel.pred old = true ∧ old.status = BorrowRequest.Status.PENDING ∧
            PyDate.lt old.requestedTo now.date = true →
          new = { old with status := BorrowRequest.Status.EXPIRED }) ∧
        (¬(sel.pred old = true ∧ old.status = BorrowRequest.Status.PENDING ∧
            PyDate.lt old.requestedTo now.date = true) →
          new = old))
      db (mark_selected_expired now sel db).fst := by
  rw [mark_selected_expired_fst]
  refine forall₂_ite_update _ _ _ (fun r => ?_) db
  constructor
  · intro hcond
    rw [if_pos]
    simp only [Bool.and_eq_true, beq_iff_eq]
    exact ⟨hcond.1, hcond.2.1, hcond.2.2⟩
  · intro hcond
    rw [if_neg]
    simp only [Bool.and_eq_true, beq_iff_eq, not_and]
    intro hsel hp hlt
    exact hcond ⟨hsel, hp, hlt⟩

/-- C6: `mark_overdue_due` moves a selected loan to `OVERDUE` exactly when its
current status is `BORROWED` and its due date is strictly before today; every
other selected loan is left unchanged. -/
theorem C6_mark_overdue_exact (now : DateTime) (sel : QuerySet Loan)
    (db : List Loan) :
    List.Forall₂ (fun old new =>
        (sel.pred old = true ∧ old.status = Loan.Status.BORROWED ∧
            PyDate.lt old.dueDate now.date = true →
          new = { old with status := Loan.Status.OVERDUE }) ∧
        (¬(sel.pred old = true ∧ old.status = Loan.Status.BORROWED ∧
            PyDate.lt old.dueDate now.date = true) →
          new = old))
      db (mark_overdue_due now sel db).fst := by
  rw [mark_overdue_due_fst]
  refine forall₂_ite_update _ _ _ (fun l => ?_) db
  constructor
  · intro hcond
    rw [if_pos]
    simp only [Bool.and_eq_true, beq_iff_eq]
    exact ⟨hcond.1, hcond.2.2, hcond.2.1⟩
  · intro hcond
    rw [if_neg]
    simp only [Bool.and_eq_true, beq_iff_eq, not_and]
    intro hsel hlt hst
    exact hcond ⟨hsel, hst, hlt⟩

/-- C8: when the rejection reason, after stripping whitespace, is empty,
`reject_selected` leaves the whole table untouched and only reports an
error message. -/
theorem C8_reject_blank_reason_no_change (now : DateTime) (adminId : Nat)
    (postReason : Option String) (sel : QuerySet BorrowRequest)
    (db : List BorrowRequest) (h : pyStrip (postReason.getD "") = "") :
    reject_selected now adminId postReason sel db =
      (db, AdminMessage.error
        "Please provide a rejection reason in the action bar before rejecting.") := by
  simp only [reject_selected, if_pos h]

theorem C8_witness :
    pyStrip ((some "   ").getD "") = "" ∧
    reject_selected demoNow 9 (some "   ") ⟨fun _ => true⟩ [demoPending] =
      ([demoPending], AdminMessage.error
        "Please provide a rejection reason in the action bar before rejecting.") :=
  ⟨by decide,
   C8_reject_blank_reason_no_change demoNow 9 (some "   ") ⟨fun _ => true⟩
     [demoPending] (by decide)⟩

/-- C9: `deactivate_users` never deactivates the requesting user — their row
is unchanged — while every other selected user gets `is_active = False`, and
unselected users are untouched. -/
theorem C9_deactivate_skips_self (requestUserId : Nat) (sel : QuerySet UserRec)
    (db : List UserRec) :
    List.Forall₂ (fun old new =>
        (old.id = requestUserId → new = old) ∧
        (old.id ≠ requestUserId → sel.pred old = true →
          new = { old with isActive := false }) ∧
        (sel.pred old = false → new = old))
      db (deactivate_users requestUserId sel db).fst := by
  rw [deactivate_users_fst]
  refine forall₂_ite_update _ _ _ (fun u => ?_) db
  refine ⟨?_, ?_, ?_⟩
  · intro hid
    rw [if_neg]
    simp only [Bool.and_eq_true, Bool.not_eq_true', beq_eq_false_iff_ne, ne_eq, not_and]
    intro _ hne
    exact hne hid
  · intro hne hsel
    rw [if_pos]
    simp only [Bool.and_eq_true, Bool.not_eq_true', beq_eq_false_iff_ne, ne_eq]
    exact ⟨hsel, hne⟩
  · intro hsel
    rw [if_neg]
    simp only [Bool.and_eq_true, not_and]
    intro hsel2
    rw [hsel] at hsel2
    cases hsel2

/-- C2 counterexample: on a store holding one `PENDING` request and an
`AVAILABLE` copy of the requested book, running `approve_selected` (with the
request selected) sets the request to `APPROVED`, yet the loans table stays
empty — no `Loan` record tied to any `BookItem` exists afterwards.  The
approve action never touches the loans table. -/
theorem C2_counterexample :
    (approve_step demoNow 9 ⟨fun _ => true⟩ demoPendingState).requests.map
        (fun r => r.status) = [BorrowRequest.Status.APPROVED] ∧
    (approve_step demoNow 9 ⟨fun _ => true⟩ demoPendingState).loans = [] := by
  constructor <;> rfl

/-- C2 (amended): `approve_selected` marks the selected `PENDING` requests
`APPROVED` (recording the deciding admin and decision time, and clearing the
rejection reason) but creates no `Loan` records: the loans and items tables
are unchanged.  Loan rows tied to specific copies are spawned by code outside
`catalog/admin.py`. -/
theorem C2_amended_approve_no_loans (now : DateTime) (adminId : Nat)
    (sel : QuerySet BorrowRequest) (s : LibState) :
    (approve_step now adminId sel s).loans = s.loans ∧
    (approve_step now adminId sel s).items = s.items ∧
    List.Forall₂ (fun old new =>
        (sel.pred old = true ∧ old.status = BorrowRequest.Status.PENDING →
          new = { old with
                  status := BorrowRequest.Status.APPROVED
                  decisionAt := some now
                  adminId := some adminId
                  rejectionReason := "" }) ∧
        (¬(sel.pred old = true ∧ old.status = BorrowRequest.Status.PENDING) →
          new = old))
      s.requests (approve_step now adminId sel s).requests := by
  refine ⟨rfl, rfl, ?_⟩
  show List.Forall₂ _ s.requests (approve_selected now adminId sel s.requests).fst
  rw [approve_selected_fst]
  refine forall₂_ite_update _ _ _ (fun r => ?_) s.requests
  constructor
  · intro hcond
    rw [if_pos]
    simp only [Bool.and_eq_true, beq_iff_eq]
    exact hcond
  · intro hcond
    rw [if_neg]
    simp only [Bool.and_eq_true, beq_iff_eq]
    exact hcond

/-- C7: `build_book_queryset` filters by item status exactly when the
supplied `item_status` value (through its admin-parameter fallbacks), after
stripping and uppercasing, is one of the five `BookItem` status codes; any
other value leaves the queryset unfiltered by item status, and the applied
status is the decoded value itself. -/
theorem C7_item_status_filter (params : Params) (inc : Bool) :
    ((build_book_queryset params inc).itemStatus.isSome ↔
      pyUpper (pyStrip (pyOrStr
        (pyOrOptStr (params.get "item_status")
          (pyOrOptStr (params.get "items__status") (params.get "items__status__exact"))) ""))
        ∈ ["AVAILABLE", "RESERVED", "LOANED", "LOST", "DAMAGED"]) ∧
    (build_book_queryset params inc).itemStatus =
      BookItem.Status.ofCode? (pyUpper (pyStrip (pyOrStr
        (pyOrOptStr (params.get "item_status")
          (pyOrOptStr (params.get "items__status") (params.get "items__status__exact"))) ""))) := by
  constructor
  · show (BookItem.Status.ofCode? _).isSome ↔ _
    generalize pyUpper _ = v
    unfold BookItem.Status.ofCode?
    split_ifs with h1 h2 h3 h4 h5 <;> simp [*]
  · rfl

/-- C10: `build_book_queryset` is total by construction; a malformed integer
or ISO-date parameter parses to `None` and applies no filter, and the
ordering key is always one of the six allowed sorts, falling back to
`title` whenever the (stripped) sort parameter is missing or not allowed. -/
theorem C10_total_and_sort_fallback (params : Params) (inc : Bool) :
    (build_book_queryset params inc).orderBy ∈ ALLOWED_SORTS ∧
    (params.get "sort" = none ∨
        pyStrip (pyOrStr (params.get "sort") "title") ∉ ALLOWED_SORTS →
      (build_book_queryset params inc).orderBy = "title") ∧
    (_parse_int (pyOrOptStr (params.get "category_id")
        (pyOrOptStr (params.get "categories__id__exact")
          (params.get "category__id__exact"))) = none →
      (build_book_queryset params inc).categoryId = none) ∧
    (_parse_int (pyOrOptStr (params.get "author_id")
        (pyOrOptStr (params.get "authors__id__exact")
          (params.get "author__id__exact"))) = none →
      (build_book_queryset params inc).authorId = none) ∧
    (_parse_int (pyOrOptStr (params.get "publisher_id")
        (params.get "publisher__id__exact")) = none →
      (build_book_queryset params inc).publisherId = none) ∧
    (_parse_int (pyOrOptStr (params.get "publish_year_from")
        (pyOrOptStr (params.get "publish_year__gte") (params.get "publish_year"))) = none →
      (build_book_queryset params inc).publishYearFrom = none) ∧
    (_parse_int (pyOrOptStr (params.get "publish_year_to")
        (pyOrOptStr (params.get "publish_year__lte") (params.get "publish_year"))) = none →
      (build_book_queryset params inc).publishYearTo = none) ∧
    (_parse_date (some (pyStrip (pyOrStr
        (pyOrOptStr (params.get "created_from") (params.get "created_at__date__gte")) ""))) = none →
      (build_book_queryset params inc).createdFrom = none) ∧
    (_parse_date (some (pyStrip (pyOrStr
        (pyOrOptStr (params.get "created_to") (params.get "created_at__date__lte")) ""))) = none →
      (build_book_queryset params inc).createdTo = none) := by
  have horder : (build_book_queryset params inc).orderBy =
      (if ALLOWED_SORTS.contains (pyStrip (pyOrStr (params.get "sort") "title"))
       then pyStrip (pyOrStr (params.get "sort") "title") else "title") := rfl
  refine ⟨?_, ?_, fun h => h, fun h => h, fun h => h, fun h => h, fun h => h,
    fun h => h, fun h => h⟩
  · rw [horder]
    split
    · next hc => exact List.elem_iff.mp hc
    · decide
  · intro h
    rw [horder]
    rcases h with hnone | hnotin
    · rw [hnone]
      rfl
    · rw [if_neg]
      intro hc
      exact hnotin (List.elem_iff.mp hc)

theorem C10_witness :
    ((build_book_queryset demoParams false).orderBy ∈ ALLOWED_SORTS) ∧
    (build_book_queryset demoParams false).orderBy = "title" ∧
    (build_book_queryset demoParams false).categoryId = none :=
  ⟨(C10_total_and_sort_fallback demoParams false).1,
   (C10_total_and_sort_fallback demoParams false).2.1 (Or.inr (by decide)),
   (C10_total_and_sort_fallback demoParams false).2.2.1 (by decide)⟩

/-! ## Lemmas for the loan invariant (C4) -/

lemma count_filter_map_le {α : Type} (q : α → Bool) (g : α → α)
    (h : ∀ x, q (g x) = true → q x = true) (l : List α) :
    ((l.map g).filter q).length ≤ (l.filter q).length := by
  induction l with
  | nil => simp
  | cons x xs ih =>
    simp only [List.map_cons, List.filter_cons]
    by_cases hq : q (g x) = true
    · rw [if_pos hq, if_pos (h x hq)]
      simpa using ih
    · rw [if_neg hq]
      split
      · exact le_trans ih (by simp)
      · exact ih

lemma borrowedCount_append (loans : List Loan) (ln : Loan) (iid : Nat) :
    borrowedCount (loans ++ [ln]) iid =
      borrowedCount loans iid +
        (if (ln.bookItemId == iid && ln.status == Loan.Status.BORROWED) = true
         then 1 else 0) := by
  unfold borrowedCount
  rw [List.filter_append, List.length_append]
  congr 1
  rw [List.filter_cons, List.filter_nil]
  split <;> rfl

lemma borrowedCount_eq_zero (loans : List Loan) (iid : Nat)
    (h : ∀ l ∈ loans, ¬(l.bookItemId = iid ∧ l.status = Loan.Status.BORROWED)) :
    borrowedCount loans iid = 0 := by
  unfold borrowedCount
  rw [List.length_eq_zero, List.filter_eq_nil_iff]
  intro l hl
  simp only [Bool.and_eq_true, beq_iff_eq]
  exact h l hl

lemma borrowedCount_pos (loans : List Loan) (iid : Nat) (l : Loan)
    (hl : l ∈ loans) (hid : l.bookItemId = iid)
    (hst : l.status = Loan.Status.BORROWED) :
    0 < borrowedCount loans iid := by
  unfold borrowedCount
  rw [List.length_pos]
  intro hnil
  have := List.filter_eq_nil_iff.mp hnil l hl
  simp [hid, hst] at this

lemma itemCurrentLoan_eq_of_unique (iid : Nat) :
    ∀ loans : List Loan, borrowedCount loans iid ≤ 1 →
      ∀ l ∈ loans, l.bookItemId = iid → l.status = Loan.Status.BORROWED →
        itemCurrentLoan loans iid = some l := by
  intro loans
  induction loans with
  | nil =>
    intro _ l hl
    cases hl
  | cons x xs ih =>
    intro hcount l hl hid hst
    by_cases hx : x.bookItemId = iid
    · by_cases hbx : x.status = Loan.Status.BORROWED
      · have hcnt : borrowedCount (x :: xs) iid = borrowedCount xs iid + 1 := by
          unfold borrowedCount
          rw [List.filter_cons, if_pos (by simp [hx, hbx])]
          simp [Nat.add_comm]
        have hxs0 : borrowedCount xs iid = 0 := by omega
        have hlx : l = x := by
          rcases List.mem_cons.mp hl with h | h
          · exact h
          · exact absurd (borrowedCount_pos xs iid l h hid hst) (by omega)
        subst hlx
        unfold itemCurrentLoan
        rw [List.filter_cons, if_pos (by simp [hx])]
        rw [List.find?_cons_of_pos _ (by simp [hbx])]
      · have hlx : l ≠ x := by
          intro he
          subst he
          exact hbx hst
        have hlt : l ∈ xs := by
          rcases List.mem_cons.mp hl with h | h
          · exact absurd h hlx
          · exact h
        have hcnt : borrowedCount (x :: xs) iid = borrowedCount xs iid := by
          unfold borrowedCount
          rw [List.filter_cons, if_neg (by simp [hbx])]
        unfold itemCurrentLoan
        rw [List.filter_cons, if_pos (by simp [hx])]
        rw [List.find?_cons_of_neg _ (by simp [hbx])]
        exact ih (by omega) l hlt hid hst
    · have hlx : l ≠ x := by
        intro he
        subst he
        exact hx hid
      have hlt : l ∈ xs := by
        rcases List.mem_cons.mp hl with h | h
        · exact absurd h hlx
        · exact h
      have hcnt : borrowedCount (x :: xs) iid = borrowedCount xs iid := by
        unfold borrowedCount
        rw [List.filter_cons, if_neg (by simp [hx])]
      unfold itemCurrentLoan
      rw [List.filter_cons, if_neg (by simp [hx])]
      exact ih (by omega) l hlt hid hst

lemma loanInv_step {s t : LibState} (hstep : Step s t) (hinv : LoanInv s) :
    LoanInv t := by
  cases hstep with
  | approve now adminId sel s2 => exact hinv
  | reject now adminId postReason sel s2 => exact hinv
  | expire now sel s2 => exact hinv
  | newRequest r s2 h => exact hinv
  | cancelRequest rid s2 => exact hinv
  | markReturned now sel s2 =>
    have hle : ∀ iid,
        borrowedCount (returned_step now sel s).loans iid ≤ borrowedCount s.loans iid := by
      intro iid
      show borrowedCount (mark_as_returned now sel s.loans).fst iid ≤ _
      rw [mark_as_returned_fst]
      refine count_filter_map_le _ _ (fun x hx => ?_) s.loans
      by_cases hs : sel.pred x = true
      · rw [if_pos hs] at hx
        simp at hx
      · rwa [if_neg hs] at hx
    exact ⟨fun iid => le_trans (hle iid) (hinv.1 iid),
      fun it hmem hav => Nat.le_zero.mp (le_trans (hle it.id) (le_of_eq (hinv.2 it hmem hav)))⟩
  | markOverdue now sel s2 =>
    have hle : ∀ iid,
        borrowedCount (overdue_step now sel s).loans iid ≤ borrowedCount s.loans iid := by
      intro iid
      show borrowedCount (mark_overdue_due now sel s.loans).fst iid ≤ _
      rw [mark_overdue_due_fst]
      refine count_filter_map_le _ _ (fun x hx => ?_) s.loans
      by_cases hs : (sel.pred x &&
          (PyDate.lt x.dueDate now.date && x.status == Loan.Status.BORROWED)) = true
      · rw [if_pos hs] at hx
        simp at hx
      · rwa [if_neg hs] at hx
    exact ⟨fun iid => le_trans (hle iid) (hinv.1 iid),
      fun it hmem hav => Nat.le_zero.mp (le_trans (hle it.id) (le_of_eq (hinv.2 it hmem hav)))⟩
  | newItem it s2 hfresh =>
    refine ⟨hinv.1, ?_⟩
    intro it2 hmem hav
    rcases List.mem_append.mp hmem with h | h
    · exact hinv.2 it2 h hav
    · have heq : it2 = it := by simpa using h
      subst heq
      exact borrowedCount_eq_zero _ _ (fun l hl hc => hfresh l hl hc.1)
  | createLoan ln s2 hb hitem =>
    obtain ⟨it0, hmem0, hid0, hav0⟩ := hitem
    have hzero : borrowedCount s.loans ln.bookItemId = 0 := by
      have := hinv.2 it0 hmem0 hav0
      rwa [hid0] at this
    constructor
    · intro iid
      show borrowedCount (s.loans ++ [ln]) iid ≤ 1
      rw [borrowedCount_append]
      by_cases hid : ln.bookItemId = iid
      · subst hid
        rw [hzero]
        split <;> omega
      · rw [if_neg (by simp [hid])]
        simpa using hinv.1 iid
    · intro it2 hmem hav
      have hmem2 : it2 ∈ s.items.map (fun it =>
          if it.id == ln.bookItemId then { it with status := BookItem.Status.LOANED }
          else it) := hmem
      rcases List.mem_map.mp hmem2 with ⟨it3, hmem3, heq⟩
      by_cases hid3 : (it3.id == ln.bookItemId) = true
      · rw [if_pos hid3] at heq
        rw [← heq] at hav
        simp at hav
      · rw [if_neg hid3] at heq
        subst heq
        have hne : ln.bookItemId ≠ it3.id := by
          intro he
          exact hid3 (by simp [he])
        show borrowedCount (s.loans ++ [ln]) it3.id = 0
        rw [borrowedCount_append, if_neg (by simp [hne])]
        simpa using hinv.2 it3 hmem3 hav

lemma reachable_loanInv {s : LibState} (h : Reachable s) : LoanInv s := by
  induction h with
  | init =>
    constructor
    · intro iid
      simp [borrowedCount, initState]
    · intro it hmem
      simp [initState] at hmem
  | step hr hstep ih => exact loanInv_step hstep ih

/-- C4: in every reachable state, a `BookItem` is referenced by at most one
`BORROWED` loan, and consequently the Items-sheet current-loan lookup (first
`BORROWED` loan of the item's loans) is uniquely determined: it returns the
one active loan whenever one exists. -/
theorem C4_at_most_one_active_loan (s : LibState) (h : Reachable s) :
    (∀ iid, borrowedCount s.loans iid ≤ 1) ∧
    (∀ iid, ∀ l ∈ s.loans, l.bookItemId = iid → l.status = Loan.Status.BORROWED →
      itemCurrentLoan s.loans iid = some l) := by
  have hinv := reachable_loanInv h
  exact ⟨hinv.1, fun iid l hl hid hst =>
    itemCurrentLoan_eq_of_unique iid s.loans (hinv.1 iid) l hl hid hst⟩

theorem C4_witness :
    Reachable demoLoanState ∧
    ((∀ iid, borrowedCount demoLoanState.loans iid ≤ 1) ∧
     (∀ iid, ∀ l ∈ demoLoanState.loans, l.bookItemId = iid →
        l.status = Loan.Status.BORROWED →
        itemCurrentLoan demoLoanState.loans iid = some l)) := by
  have h1 : Reachable { initState with items := [demoItem] } :=
    Reachable.step Reachable.init
      (Step.newItem demoItem initState (by intro l hl; cases hl))
  have h2 : Reachable demoLoanState :=
    Reachable.step h1
      (Step.createLoan demoLoan _ rfl ⟨demoItem, by simp [initState], rfl, rfl⟩)
  exact ⟨h2, C4_at_most_one_active_loan demoLoanState h2⟩

/-! ## Lemmas for the workbook rendering (C5) -/

lemma foldl_append_rows {α : Type} (g : α → List (List Cell)) (l : List α) :
    ∀ w : Worksheet,
      l.foldl (fun w x => { w with rows := w.rows ++ g x }) w =
        ⟨w.title, w.rows ++ (l.map g).flatten⟩ := by
  induction l with
  | nil =>
    intro w
    simp
  | cons x xs ih =>
    intro w
    rw [List.foldl_cons, ih]
    simp [List.append_assoc]

lemma join_map_singleton {α : Type} (f : α → List Cell) (l : List α) :
    (l.map (fun x => [f x])).flatten = l.map f := by
  induction l with
  | nil => rfl
  | cons x xs ih => simp [ih]

lemma inner_items_fold (book : BookView) (w : Worksheet) :
    book.items.foldl (fun w iv => { w with rows := w.rows ++ [itemSheetRow book iv] }) w =
      { w with rows := w.rows ++ book.items.map (itemSheetRow book) } := by
  rw [foldl_append_rows (fun iv => [itemSheetRow book iv]) book.items w,
    join_map_singleton]

/-- C5: the rendered workbook's `Books` sheet is exactly a header row followed
by one row per book of the queryset, each cell computed by `_book_cell_value`
on the requested columns; and the workbook carries an `Items` sheet — with a
header row followed by one row per physical copy of each book — precisely
when `include_items` is true. -/
theorem C5_workbook_structure (qs : List BookView) (columns : Option (List String))
    (inc : Bool) :
    (render_books_workbook qs columns inc).active =
      ⟨"Books",
        (((effective_columns columns).map headerOfCol).map Cell.str) ::
          qs.map (fun b => (effective_columns columns).map (_book_cell_value b))⟩ ∧
    (render_books_workbook qs columns inc).extra =
      (if inc then
        [⟨"Items", (ITEM_HEADERS.map Cell.str) ::
            (qs.map (fun b => b.items.map (itemSheetRow b))).flatten⟩]
       else []) ∧
    ((render_books_workbook qs columns inc).extra ≠ [] ↔ inc = true) := by
  have hbooks :
      qs.foldl (fun w book =>
          { w with rows := w.rows ++ [(effective_columns columns).map (_book_cell_value book)] })
        ⟨"Books", [((effective_columns columns).map headerOfCol).map Cell.str]⟩ =
      (⟨"Books",
        (((effective_columns columns).map headerOfCol).map Cell.str) ::
          qs.map (fun b => (effective_columns columns).map (_book_cell_value b))⟩ : Worksheet) := by
    rw [foldl_append_rows
      (fun book => [(effective_columns columns).map (_book_cell_value book)]) qs,
      join_map_singleton]
    rfl
  have hitems :
      qs.foldl (fun w book =>
          book.items.foldl
            (fun w iv => { w with rows := w.rows ++ [itemSheetRow book iv] }) w)
        ⟨"Items", [ITEM_HEADERS.map Cell.str]⟩ =
      (⟨"Items", (ITEM_HEADERS.map Cell.str) ::
          (qs.map (fun b => b.items.map (itemSheetRow b))).flatten⟩ : Worksheet) := by
    simp only [inner_items_fold]
    rw [foldl_append_rows (fun book => book.items.map (itemSheetRow book)) qs]
    rfl
  cases inc with
  | false =>
    refine ⟨?_, ?_, ?_⟩
    · simpa only [render_books_workbook, if_neg Bool.false_ne_true] using hbooks
    · simp only [render_books_workbook, if_neg Bool.false_ne_true]
    · simp [render_books_workbook]
  | true =>
    refine ⟨?_, ?_, ?_⟩
    · simpa only [render_books_workbook, if_pos rfl] using hbooks
    · simp only [render_books_workbook, if_pos rfl]
      exact congrArg (fun w => [w]) hitems
    · simp [render_books_workbook]

end LibraryMgmt
